import Mathlib

/-!
Verification development for the Cycl3D Basic Bike Fit tool (`script.js`).

The file shallowly embeds the core of the program: the geometry kernel
(`calcAngle`, the horizontal-reference back angle), the ideal-range and
advice tables, the per-joint angle derivation performed by `draw()` and by
the PDF-export path, and the pointer-interaction state machine
(`handleStart` / `handleMove` / `handleEnd`) together with the
save / clear / restore session operations.

Coordinates are rational numbers (JavaScript numbers are used only for
arithmetic that the claims treat symbolically); angle values live in `ℝ`,
with `Real.sqrt`, `Real.arccos` and an explicit `atan2` standing for the
corresponding `Math` functions.
-/

/-- A 2D point in photo-display coordinate space, as stored in the
`points` array of `script.js`. -/
structure Point where
  x : ℚ
  y : ℚ
deriving DecidableEq, Repr

/-- The squared Euclidean distance `(p.x - pos.x)^2 + (p.y - pos.y)^2`
appearing (under `Math.sqrt`) in the grab-radius test of `handleStart`
(script.js:448-450). -/
def distSq (pos p : Point) : ℚ :=
  (p.x - pos.x) ^ 2 + (p.y - pos.y) ^ 2

/-- The grab-radius test `Math.sqrt((p.x-pos.x)**2 + (p.y-pos.y)**2) < 25`
of `handleStart` (script.js:448-450), stated on the squared distance:
`sqrt d < 25 ↔ d < 625` for the exact reals (`withinRadius_sqrt` below). -/
def withinRadius (pos p : Point) : Bool :=
  decide (distSq pos p < 625)

/-- The squared-distance formulation of `withinRadius` agrees with the
source's `Math.sqrt(dx^2 + dy^2) < 25` over the exact reals. -/
theorem withinRadius_sqrt (pos p : Point) :
    withinRadius pos p = true ↔
      Real.sqrt (((p.x : ℝ) - (pos.x : ℝ)) ^ 2 + ((p.y : ℝ) - (pos.y : ℝ)) ^ 2) < 25 := by
  have h : Real.sqrt (((p.x : ℝ) - (pos.x : ℝ)) ^ 2 + ((p.y : ℝ) - (pos.y : ℝ)) ^ 2) < 25 ↔
      ((p.x : ℝ) - (pos.x : ℝ)) ^ 2 + ((p.y : ℝ) - (pos.y : ℝ)) ^ 2 < 25 ^ 2 :=
    Real.sqrt_lt' (by norm_num)
  rw [withinRadius, decide_eq_true_iff, h, distSq]
  constructor
  · intro hq
    calc ((p.x : ℝ) - pos.x) ^ 2 + ((p.y : ℝ) - pos.y) ^ 2
        = ((((p.x - pos.x) ^ 2 + (p.y - pos.y) ^ 2 : ℚ)) : ℝ) := by push_cast; ring
      _ < ((625 : ℚ) : ℝ) := by exact_mod_cast hq
      _ = 25 ^ 2 := by norm_num
  · intro hr
    have : ((((p.x - pos.x) ^ 2 + (p.y - pos.y) ^ 2 : ℚ)) : ℝ) < ((625 : ℚ) : ℝ) := by
      calc ((((p.x - pos.x) ^ 2 + (p.y - pos.y) ^ 2 : ℚ)) : ℝ)
          = ((p.x : ℝ) - pos.x) ^ 2 + ((p.y : ℝ) - pos.y) ^ 2 := by push_cast; ring
        _ < 25 ^ 2 := hr
        _ = ((625 : ℚ) : ℝ) := by norm_num
    exact_mod_cast this

/-- The five named joints of the derivation table in `draw()`
(script.js:121-178). -/
inductive Joint where
  | Ankle | Knee | Back | Shoulder | Elbow
deriving DecidableEq, Repr

/-- The riding styles of the `fitType` dropdown, the keys of the inner
objects of `IDEAL_RANGES` (script.js:53-59). -/
inductive RidingStyle where
  | Relaxed | Balanced | Aggressive
deriving DecidableEq, Repr

/-- Modelled from the spec: the bicycle-type enumeration `{Road, Gravel,
MTB}` of §6 ("bicycle type ∈ {Road, Gravel, MTB}"). No code under `src/`
declares it; the range lookup in `script.js` is keyed only by joint and
riding style, so it never consumes a bicycle type. -/
inductive BikeType where
  | Road | Gravel | MTB
deriving DecidableEq, Repr

/-- `MAX_POINTS = 7` (script.js:47). -/
def MAX_POINTS : ℕ := 7

/-- The `IDEAL_RANGES` table (script.js:53-59): for each joint and riding
style, the closed interval `[min, max]` in degrees. The JavaScript object
literal lists all fifteen joint × style entries, hence a total function. -/
def IDEAL_RANGES (j : Joint) (s : RidingStyle) : ℚ × ℚ :=
  match j, s with
  | .Knee,     .Relaxed    => (145, 150)
  | .Knee,     .Balanced   => (140, 145)
  | .Knee,     .Aggressive => (138, 142)
  | .Back,     .Relaxed    => (45, 50)
  | .Back,     .Balanced   => (40, 45)
  | .Back,     .Aggressive => (30, 40)
  | .Shoulder, .Relaxed    => (80, 90)
  | .Shoulder, .Balanced   => (90, 95)
  | .Shoulder, .Aggressive => (95, 105)
  | .Elbow,    .Relaxed    => (10, 15)
  | .Elbow,    .Balanced   => (15, 20)
  | .Elbow,    .Aggressive => (20, 30)
  | .Ankle,    .Relaxed    => (95, 105)
  | .Ankle,    .Balanced   => (100, 115)
  | .Ankle,    .Aggressive => (110, 125)

/-- Corrective advice for a joint: the `low` / `high` entries of the
`ADVICE` tables. -/
structure Advice where
  low : String
  high : String
deriving DecidableEq, Repr

/-- The `ADVICE` table of `updateTable` (script.js:357-363), the
live-overlay path. -/
def ADVICE (j : Joint) : Advice :=
  match j with
  | .Knee     => ⟨"RAISE saddle height", "LOWER saddle height"⟩
  | .Back     => ⟨"Higher bars (add spacers)", "Lower bars (remove spacers)"⟩
  | .Shoulder => ⟨"Longer stem", "Shorter stem"⟩
  | .Elbow    => ⟨"Shorten reach", "Increase reach"⟩
  | .Ankle    => ⟨"Check cleat fore/aft", "Check cleat fore/aft"⟩

/-- The `ADVICE` table of the PDF-export click handler (script.js:724-730),
the second, deliberately duplicated call site. -/
def ADVICE_PDF (j : Joint) : Advice :=
  match j with
  | .Knee     => ⟨"RAISE saddle height", "LOWER saddle height"⟩
  | .Back     => ⟨"Higher bars (add spacers)", "Lower bars (remove spacers)"⟩
  | .Shoulder => ⟨"Longer stem", "Shorter stem"⟩
  | .Elbow    => ⟨"Shorten reach", "Increase reach"⟩
  | .Ankle    => ⟨"Check cleat fore/aft", "Check cleat fore/aft"⟩

/-- `calcAngle(p1, p2, p3)` (script.js:313-332): the angle in degrees at
vertex `p2` via the clamped dot-product formula. -/
noncomputable def calcAngle (p1 p2 p3 : Point) : ℝ :=
  let vAx : ℝ := (p1.x : ℝ) - (p2.x : ℝ)
  let vAy : ℝ := (p1.y : ℝ) - (p2.y : ℝ)
  let vCx : ℝ := (p3.x : ℝ) - (p2.x : ℝ)
  let vCy : ℝ := (p3.y : ℝ) - (p2.y : ℝ)
  let dot : ℝ := vAx * vCx + vAy * vCy
  let magA : ℝ := Real.sqrt (vAx ^ 2 + vAy ^ 2)
  let magC : ℝ := Real.sqrt (vCx ^ 2 + vCy ^ 2)
  let cosTheta : ℝ := max (-1) (min 1 (dot / (magA * magC)))
  Real.arccos cosTheta * (180 / Real.pi)

/-- `Math.atan2(y, x)` with JavaScript's quadrant conventions. -/
noncomputable def atan2 (y x : ℝ) : ℝ :=
  if 0 < x then Real.arctan (y / x)
  else if x < 0 then
    (if 0 ≤ y then Real.arctan (y / x) + Real.pi else Real.arctan (y / x) - Real.pi)
  else
    (if 0 < y then Real.pi / 2 else if y < 0 then -(Real.pi / 2) else 0)

/-- The back angle `Math.abs(Math.atan2(p4.y - p3.y, p4.x - p3.x) * (180 / Math.PI))`
as inlined identically in `draw()` (script.js:147-149) and in the PDF path
(script.js:686-688, 739). -/
noncomputable def backAngle (p3 p4 : Point) : ℝ :=
  |atan2 ((p4.y : ℝ) - (p3.y : ℝ)) ((p4.x : ℝ) - (p3.x : ℝ)) * (180 / Real.pi)|

/-- One entry of the `angleData` array pushed by `draw()`
(script.js:176): joint name, exact angle, the boolean in-range flag and
the looked-up range. -/
structure AngleResult where
  name : Joint
  angle : ℝ
  isOk : Bool
  range : ℚ × ℚ

/-- The default used for `List.getD`; every access below is guarded so the
default is never read. -/
def dpt : Point := ⟨0, 0⟩

/-- The per-index angle selection of the `points.forEach((p, i) => ...)`
loop of `draw()` (script.js:121-160): at index `i`, the joint name and
angle produced by the chain of `if (i === k && points[k+1])` tests (for the
ankle the test is `i === 1 && points[2]`, and so on; at most one test can
match a given `i`, so the successive JavaScript `if`s are an if-else
chain). -/
noncomputable def drawAngleAt (pts : List Point) (i : ℕ) : Option (Joint × ℝ) :=
  if i = 1 ∧ 2 < pts.length then
    some (.Ankle, calcAngle (pts.getD 0 dpt) (pts.getD 1 dpt) (pts.getD 2 dpt))
  else if i = 2 ∧ 3 < pts.length then
    some (.Knee, calcAngle (pts.getD 1 dpt) (pts.getD 2 dpt) (pts.getD 3 dpt))
  else if i = 3 ∧ 4 < pts.length then
    some (.Back, backAngle (pts.getD 3 dpt) (pts.getD 4 dpt))
  else if i = 4 ∧ 5 < pts.length then
    some (.Shoulder, calcAngle (pts.getD 3 dpt) (pts.getD 4 dpt) (pts.getD 5 dpt))
  else if i = 5 ∧ 6 < pts.length then
    some (.Elbow, |180 - calcAngle (pts.getD 4 dpt) (pts.getD 5 dpt) (pts.getD 6 dpt)|)
  else none

/-- The classification attached to a computed angle inside `draw()`
(script.js:165-176): `range = IDEAL_RANGES[name][style]`,
`isOk = angle >= range[0] && angle <= range[1]`. -/
noncomputable def mkResult (style : RidingStyle) (j : Joint) (angle : ℝ) : AngleResult :=
  let range := IDEAL_RANGES j style
  { name := j
    angle := angle
    isOk := decide (((range.1 : ℝ) ≤ angle) ∧ (angle ≤ (range.2 : ℝ)))
    range := range }

/-- The `angleData` array collected by `draw()` (script.js:119-178): the
loop over all placed points, keeping an `AngleResult` exactly when the
index yields an angle. -/
noncomputable def angleData (pts : List Point) (style : RidingStyle) : List AngleResult :=
  (List.range pts.length).filterMap fun i =>
    (drawAngleAt pts i).map fun ja => mkResult style ja.1 ja.2

/-- One row of the results table: joint, exact angle, in-range flag, and
the recommendation text. Shared shape of the live `updateTable` rows
(script.js:380-391) and the PDF `tableRows` (script.js:744-758). -/
structure Row where
  joint : Joint
  degrees : ℝ
  ok : Bool
  advice : String

/-- The row built by `updateTable` for one measurement `m`
(script.js:380-391): `direction = m.angle < m.range[0] ? 'low' : 'high'`,
`adviceText = m.isOk ? 'Optimal ✓' : ADVICE[m.name][direction]`. -/
noncomputable def liveRow (m : AngleResult) : Row :=
  { joint := m.name
    degrees := m.angle
    ok := m.isOk
    advice :=
      if m.isOk then "Optimal ✓"
      else if m.angle < (m.range.1 : ℝ) then (ADVICE m.name).low else (ADVICE m.name).high }

/-- The rows of the live results table (script.js:347-398): `updateTable`
applied to the `angleData` collected by `draw()`. -/
noncomputable def liveRows (pts : List Point) (style : RidingStyle) : List Row :=
  (angleData pts style).map liveRow

/-- The `jointDefs` array of the PDF-export handler (script.js:736-742):
for each joint, the guarded angle computation
(`points[a] && points[b] && points[c] ? calcAngle(...) : null`). -/
noncomputable def jointDefs (pts : List Point) : List (Joint × Option ℝ) :=
  [ (.Ankle,
      if 0 < pts.length ∧ 1 < pts.length ∧ 2 < pts.length then
        some (calcAngle (pts.getD 0 dpt) (pts.getD 1 dpt) (pts.getD 2 dpt))
      else none)
  , (.Knee,
      if 1 < pts.length ∧ 2 < pts.length ∧ 3 < pts.length then
        some (calcAngle (pts.getD 1 dpt) (pts.getD 2 dpt) (pts.getD 3 dpt))
      else none)
  , (.Back,
      if 3 < pts.length ∧ 4 < pts.length then
        some (backAngle (pts.getD 3 dpt) (pts.getD 4 dpt))
      else none)
  , (.Shoulder,
      if 3 < pts.length ∧ 4 < pts.length ∧ 5 < pts.length then
        some (calcAngle (pts.getD 3 dpt) (pts.getD 4 dpt) (pts.getD 5 dpt))
      else none)
  , (.Elbow,
      if 4 < pts.length ∧ 5 < pts.length ∧ 6 < pts.length then
        some (|180 - calcAngle (pts.getD 4 dpt) (pts.getD 5 dpt) (pts.getD 6 dpt)|)
      else none) ]

/-- The `tableRows` loop of the PDF-export handler (script.js:744-758):
for each joint definition whose angle is non-null, the range lookup, the
in-range flag, the direction and the advice text. -/
noncomputable def pdfRows (pts : List Point) (style : RidingStyle) : List Row :=
  (jointDefs pts).filterMap fun jd =>
    jd.2.map fun angle =>
      let range := IDEAL_RANGES jd.1 style
      let isOk : Bool := decide (((range.1 : ℝ) ≤ angle) ∧ (angle ≤ (range.2 : ℝ)))
      { joint := jd.1
        degrees := angle
        ok := isOk
        advice :=
          if isOk then "Optimal ✓"
          else if angle < (range.1 : ℝ) then (ADVICE_PDF jd.1).low else (ADVICE_PDF jd.1).high }

/-- The mutable application state of `script.js` (lines 65-71) together
with the `cycl3d_save` slot of `localStorage`: the committed points array,
the index of the point referenced by `draggingPoint` (`script.js` holds
the object itself; every such object lives in `points`, so an index is the
same data), the staged `ghostPoint`, the `isTouchDrag` flag and the last
recorded pointer coordinates. -/
structure AppState where
  points : List Point
  draggingPoint : Option ℕ
  ghostPoint : Option Point
  isTouchDrag : Bool
  lastX : ℚ
  lastY : ℚ
  storage : Option (List Point)
deriving DecidableEq, Repr

/-- The state right after `DOMContentLoaded`: no points, no drag, no ghost,
nothing saved. -/
def initState : AppState :=
  { points := [], draggingPoint := none, ghostPoint := none,
    isTouchDrag := false, lastX := 0, lastY := 0, storage := none }

/-- `points.find(p => Math.sqrt(...) < 25)` of `handleStart`
(script.js:448-450), returning the index of the first matching point
(JavaScript's `find` returns the first element satisfying the predicate in
array order). -/
def findPointIdx (pos : Point) : List Point → Option ℕ
  | [] => none
  | p :: ps =>
    if withinRadius pos p then some 0 else (findPointIdx pos ps).map (· + 1)

/-- `handleStart(e)` (script.js:440-462): clear any stale ghost, record the
pointer type, grab the first point within the 25px radius, else append a
new point when fewer than `MAX_POINTS` exist, and record the pointer
coordinates. -/
def handleStart (s : AppState) (pos : Point) (touch : Bool) : AppState :=
  let found := findPointIdx pos s.points
  match found with
  | some i =>
    { s with ghostPoint := none, isTouchDrag := touch,
             draggingPoint := some i, lastX := pos.x, lastY := pos.y }
  | none =>
    if s.points.length < MAX_POINTS then
      { s with ghostPoint := none, isTouchDrag := touch,
               points := s.points ++ [pos],
               draggingPoint := some s.points.length,
               lastX := pos.x, lastY := pos.y }
    else
      { s with ghostPoint := none, isTouchDrag := touch,
               draggingPoint := none, lastX := pos.x, lastY := pos.y }

/-- `handleMove(e)` (script.js:472-483): a no-op without an active drag;
otherwise stage the pointer position in the ghost point — the committed
`points` array is not touched. -/
def handleMove (s : AppState) (pos : Point) : AppState :=
  match s.draggingPoint with
  | none => s
  | some _ => { s with ghostPoint := some pos, lastX := pos.x, lastY := pos.y }

/-- `handleEnd()` (script.js:491-503): commit the ghost position into the
dragged point when both exist, then clear the ghost, the touch flag and
the active-point reference. -/
def handleEnd (s : AppState) : AppState :=
  let pts :=
    match s.draggingPoint, s.ghostPoint with
    | some i, some g => s.points.set i g
    | _, _ => s.points
  { s with points := pts, ghostPoint := none, isTouchDrag := false, draggingPoint := none }

/-- The pointer events the canvas listens to (script.js:515-518):
`pointerdown`, `pointermove`, `pointerup` and `pointercancel` (the last
two share the handler `handleEnd`). -/
inductive GEvent where
  | start (pos : Point) (touch : Bool)
  | move (pos : Point)
  | up
  | cancel

/-- Dispatch of one pointer event to its handler. -/
def gstep (s : AppState) : GEvent → AppState
  | .start pos touch => handleStart s pos touch
  | .move pos => handleMove s pos
  | .up => handleEnd s
  | .cancel => handleEnd s

/-- A sequence of pointer events applied in order. -/
def runEvents (s : AppState) (evs : List GEvent) : AppState :=
  evs.foldl gstep s

/-- The Save Session click handler (script.js:839-848):
`localStorage.setItem('cycl3d_save', JSON.stringify(points))` — the
snapshot holds the coordinates of the committed points. -/
def saveSession (s : AppState) : AppState :=
  { s with storage := some s.points }

/-- The Clear click handler (script.js:590-607): `points = []`, the
results area is emptied, and
`localStorage.removeItem('cycl3d_save')` deletes the saved snapshot.
(`draggingPoint` and `ghostPoint` are not touched by this handler.) -/
def clearSession (s : AppState) : AppState :=
  { s with points := [], storage := none }

/-- Modelled from the spec: the restore operation (§3 "Session Snapshot —
the serialized Landmark Sequence (coordinates only), written to persistent
storage on explicit save, read back on explicit restore"). No code under
`src/` reads `cycl3d_save` back; faithful to the spec's words, restore
replaces the Landmark Sequence with the stored coordinates when a snapshot
exists, and reads nothing back otherwise. -/
def restoreSession (s : AppState) : AppState :=
  match s.storage with
  | some ps => { s with points := ps }
  | none => s

/-! ## Helper lemmas about the interaction state machine -/

/-- Unfolding one step of `runEvents`. -/
theorem runEvents_cons (s : AppState) (e : GEvent) (evs : List GEvent) :
    runEvents s (e :: evs) = runEvents (gstep s e) evs := rfl

/-- `handleMove` never touches the committed points or the active-point
reference. -/
theorem handleMove_frame (s : AppState) (pos : Point) :
    (handleMove s pos).points = s.points ∧
    (handleMove s pos).draggingPoint = s.draggingPoint := by
  cases h : s.draggingPoint <;> simp [handleMove, h]

/-- A run consisting only of move events while a drag is active keeps the
points and the active-point reference, and leaves the ghost at the last
move's position. -/
theorem moveRun (ms : List Point) (s : AppState) (i : ℕ) (L : Point)
    (h : s.draggingPoint = some i) :
    (runEvents s ((ms ++ [L]).map GEvent.move)).points = s.points ∧
    (runEvents s ((ms ++ [L]).map GEvent.move)).draggingPoint = some i ∧
    (runEvents s ((ms ++ [L]).map GEvent.move)).ghostPoint = some L := by
  induction ms generalizing s with
  | nil =>
    simp [runEvents, gstep, handleMove, h]
  | cons m ms ih =>
    have hm : (handleMove s m).draggingPoint = some i := by
      simp [handleMove, h]
    have hrec := ih (handleMove s m) hm
    have hcons : ((m :: ms ++ [L]).map GEvent.move) =
        GEvent.move m :: ((ms ++ [L]).map GEvent.move) := by simp
    rw [hcons, runEvents_cons]
    refine ⟨?_, hrec.2.1, hrec.2.2⟩
    rw [show (gstep s (GEvent.move m)) = handleMove s m from rfl]
    rw [hrec.1, (handleMove_frame s m).1]

/-- A single gesture step cannot push the points array past `MAX_POINTS`. -/
theorem gstep_capacity (s : AppState) (e : GEvent)
    (h : s.points.length ≤ MAX_POINTS) : (gstep s e).points.length ≤ MAX_POINTS := by
  cases e with
  | start pos touch =>
    show (handleStart s pos touch).points.length ≤ MAX_POINTS
    unfold handleStart
    cases hf : findPointIdx pos s.points with
    | some i => simpa using h
    | none =>
      by_cases hl : s.points.length < MAX_POINTS
      · rw [if_pos hl]; simpa using hl
      · rw [if_neg hl]; simpa using h
  | move pos =>
    show (handleMove s pos).points.length ≤ MAX_POINTS
    rw [(handleMove_frame s pos).1]; exact h
  | up =>
    show (handleEnd s).points.length ≤ MAX_POINTS
    unfold handleEnd
    cases s.draggingPoint <;> cases s.ghostPoint <;> simpa using h
  | cancel =>
    show (handleEnd s).points.length ≤ MAX_POINTS
    unfold handleEnd
    cases s.draggingPoint <;> cases s.ghostPoint <;> simpa using h

/-- The capacity bound is preserved along any run of gesture events. -/
theorem runEvents_capacity (evs : List GEvent) (s : AppState)
    (h : s.points.length ≤ MAX_POINTS) :
    (runEvents s evs).points.length ≤ MAX_POINTS := by
  induction evs generalizing s with
  | nil => exact h
  | cons e evs ih => exact ih _ (gstep_capacity s e h)

/-- A gesture-start location with no committed point inside the grab
radius finds nothing. -/
theorem findPointIdx_eq_none (pos : Point) (l : List Point)
    (h : ∀ p ∈ l, withinRadius pos p = false) : findPointIdx pos l = none := by
  induction l with
  | nil => rfl
  | cons a l ih =>
    unfold findPointIdx
    rw [if_neg (by simp [h a (by simp)]), ih fun p hp => h p (by simp [hp])]
    rfl

/-- Characterization of `findPointIdx`: a returned index points at an
in-radius point, and every earlier index does not. -/
theorem findPointIdx_spec (pos : Point) (l : List Point) (j : ℕ)
    (h : findPointIdx pos l = some j) :
    (∃ p, l[j]? = some p ∧ withinRadius pos p = true) ∧
    (∀ i, i < j → ∀ q, l[i]? = some q → withinRadius pos q = false) := by
  induction l generalizing j with
  | nil => simp [findPointIdx] at h
  | cons a l ih =>
    unfold findPointIdx at h
    by_cases ha : withinRadius pos a
    · rw [if_pos ha] at h
      cases h
      exact ⟨⟨a, by simp, ha⟩, fun i hi => absurd hi (Nat.not_lt_zero i)⟩
    · rw [if_neg ha] at h
      cases hfl : findPointIdx pos l with
      | none => rw [hfl] at h; exact Option.noConfusion h
      | some k =>
        rw [hfl] at h
        simp only [Option.map_some'] at h
        obtain ⟨⟨p, hp, hw⟩, hmin⟩ := ih k hfl
        cases h
        refine ⟨⟨p, by simpa using hp, hw⟩, ?_⟩
        intro i hi q hq
        match i with
        | 0 =>
          simp only [List.getElem?_cons_zero, Option.some.injEq] at hq
          subst hq
          simpa using ha
        | (i' + 1) =>
          exact hmin i' (by omega) q (by simpa using hq)

/-- A gesture step preserves "a ghost can only exist while a drag is
active". -/
theorem gstep_ghost_drag (s : AppState) (e : GEvent)
    (h : s.ghostPoint.isSome = true → s.draggingPoint.isSome = true) :
    (gstep s e).ghostPoint.isSome = true → (gstep s e).draggingPoint.isSome = true := by
  cases e with
  | start pos touch =>
    show (handleStart s pos touch).ghostPoint.isSome = true →
      (handleStart s pos touch).draggingPoint.isSome = true
    cases hf : findPointIdx pos s.points with
    | some i => simp [handleStart, hf]
    | none =>
      by_cases hl : s.points.length < MAX_POINTS
      · simp [handleStart, hf, hl]
      · simp [handleStart, hf, hl]
  | move pos =>
    show (handleMove s pos).ghostPoint.isSome = true →
      (handleMove s pos).draggingPoint.isSome = true
    cases hd : s.draggingPoint with
    | none =>
      simp only [handleMove, hd]
      exact fun hg => hd ▸ h hg
    | some i => simp [handleMove, hd]
  | up =>
    intro hg; simp [gstep, handleEnd] at hg
  | cancel =>
    intro hg; simp [gstep, handleEnd] at hg

/-- The ghost-only-while-dragging invariant holds along any run. -/
theorem runEvents_ghost_drag (evs : List GEvent) (s : AppState)
    (h : s.ghostPoint.isSome = true → s.draggingPoint.isSome = true) :
    (runEvents s evs).ghostPoint.isSome = true →
    (runEvents s evs).draggingPoint.isSome = true := by
  induction evs generalizing s with
  | nil => exact h
  | cons e evs ih => exact ih _ (gstep_ghost_drag s e h)

/-! ## Claims -/

/-- C3: the range lookup is total over the full enumeration of joints ×
bicycle types × riding styles — for every joint, bicycle type and riding
style it yields exactly one closed interval `(mn, mx)` (with `mn < mx`).
The lookup of `script.js` is keyed only by joint and riding style, so it
resolves identically for every bicycle type. -/
theorem c3_classify_total (j : Joint) (b : BikeType) (s : RidingStyle) :
    ∃ mn mx : ℚ, IDEAL_RANGES j s = (mn, mx) ∧ mn < mx := by
  cases j <;> cases s <;> exact ⟨_, _, rfl, by norm_num⟩

/-- C5: a gesture move while an active point is set stages the pointer
location in the Ghost Point only — the committed points array (hence every
mid-drag angle derivation) and the active-point reference are unchanged. -/
theorem c5_move_stages_ghost_only (s : AppState) (pos : Point) (i : ℕ)
    (h : s.draggingPoint = some i) :
    (handleMove s pos).points = s.points ∧
    (handleMove s pos).ghostPoint = some pos ∧
    (handleMove s pos).draggingPoint = s.draggingPoint ∧
    ∀ style, angleData (handleMove s pos).points style = angleData s.points style := by
  simp [handleMove, h]

/-- Witness for C5 at a concrete one-point state mid-drag. -/
theorem c5_move_stages_ghost_only_witness :
    (({ initState with points := [⟨1, 1⟩], draggingPoint := some 0 } : AppState).draggingPoint
        = some 0) ∧
    ((handleMove { initState with points := [⟨1, 1⟩], draggingPoint := some 0 } ⟨2, 3⟩).points
        = ({ initState with points := [⟨1, 1⟩], draggingPoint := some 0 } : AppState).points ∧
      (handleMove { initState with points := [⟨1, 1⟩], draggingPoint := some 0 } ⟨2, 3⟩).ghostPoint
        = some ⟨2, 3⟩ ∧
      (handleMove { initState with points := [⟨1, 1⟩], draggingPoint := some 0 } ⟨2, 3⟩).draggingPoint
        = ({ initState with points := [⟨1, 1⟩], draggingPoint := some 0 } : AppState).draggingPoint ∧
      ∀ style,
        angleData (handleMove { initState with points := [⟨1, 1⟩], draggingPoint := some 0 } ⟨2, 3⟩).points style
          = angleData ({ initState with points := [⟨1, 1⟩], draggingPoint := some 0 } : AppState).points style) :=
  ⟨rfl, c5_move_stages_ghost_only { initState with points := [⟨1, 1⟩], draggingPoint := some 0 } ⟨2, 3⟩ 0 rfl⟩

/-- C6: a drag gesture of one or more moves ending at `L` commits exactly
`L` into the dragged point on release, and clears both the Ghost Point and
the active-point reference. -/
theorem c6_commit_fidelity (s : AppState) (i : ℕ) (ms : List Point) (L : Point)
    (hd : s.draggingPoint = some i) (hi : i < s.points.length) :
    (handleEnd (runEvents s ((ms ++ [L]).map GEvent.move))).points[i]? = some L ∧
    (handleEnd (runEvents s ((ms ++ [L]).map GEvent.move))).ghostPoint = none ∧
    (handleEnd (runEvents s ((ms ++ [L]).map GEvent.move))).draggingPoint = none := by
  obtain ⟨hp, hdr, hg⟩ := moveRun ms s i L hd
  refine ⟨?_, by simp [handleEnd], by simp [handleEnd]⟩
  simp only [handleEnd, hdr, hg, hp]
  exact List.getElem?_set_eq_of_lt L hi

/-- Witness for C6: one point, two moves, released at `(200, 300)`. -/
theorem c6_commit_fidelity_witness :
    (({ initState with points := [⟨0, 0⟩], draggingPoint := some 0 } : AppState).draggingPoint
        = some 0) ∧
    (0 < ({ initState with points := [⟨0, 0⟩], draggingPoint := some 0 } : AppState).points.length) ∧
    ((handleEnd (runEvents { initState with points := [⟨0, 0⟩], draggingPoint := some 0 }
        (([(⟨5, 5⟩ : Point)] ++ [(⟨200, 300⟩ : Point)]).map GEvent.move))).points[0]? = some ⟨200, 300⟩ ∧
      (handleEnd (runEvents { initState with points := [⟨0, 0⟩], draggingPoint := some 0 }
        (([(⟨5, 5⟩ : Point)] ++ [(⟨200, 300⟩ : Point)]).map GEvent.move))).ghostPoint = none ∧
      (handleEnd (runEvents { initState with points := [⟨0, 0⟩], draggingPoint := some 0 }
        (([(⟨5, 5⟩ : Point)] ++ [(⟨200, 300⟩ : Point)]).map GEvent.move))).draggingPoint = none) :=
  ⟨rfl, by decide,
    c6_commit_fidelity { initState with points := [⟨0, 0⟩], draggingPoint := some 0 }
      0 [⟨5, 5⟩] ⟨200, 300⟩ rfl (by decide)⟩

/-- C7: starting from the empty sequence, no run of gesture events pushes
the Landmark Sequence past `MAX_POINTS = 7`; and a gesture start in empty
space (no committed point within the grab radius) on a full sequence
leaves the points unchanged. -/
theorem c7_capacity (evs : List GEvent) (s : AppState) (pos : Point) (t : Bool)
    (h7 : s.points.length = MAX_POINTS)
    (hmiss : ∀ p ∈ s.points, withinRadius pos p = false) :
    (runEvents initState evs).points.length ≤ MAX_POINTS ∧
    (handleStart s pos t).points = s.points := by
  refine ⟨runEvents_capacity evs initState (by simp [initState, MAX_POINTS]), ?_⟩
  unfold handleStart
  rw [findPointIdx_eq_none pos s.points hmiss]
  rw [if_neg (by omega)]

/-- Witness for C7: a full seven-point state far away from the gesture
location. -/
def sevenS : AppState :=
  { initState with
    points := [⟨100, 100⟩, ⟨200, 200⟩, ⟨300, 300⟩, ⟨400, 400⟩, ⟨500, 500⟩, ⟨600, 600⟩, ⟨700, 700⟩] }

/-- Witness for C7 at a concrete run and a concrete full state. -/
theorem c7_capacity_witness :
    (sevenS.points.length = MAX_POINTS) ∧
    (∀ p ∈ sevenS.points, withinRadius ⟨0, 0⟩ p = false) ∧
    ((runEvents initState [GEvent.start ⟨0, 0⟩ false]).points.length ≤ MAX_POINTS ∧
      (handleStart sevenS ⟨0, 0⟩ false).points = sevenS.points) :=
  ⟨rfl, by intro p hp; fin_cases hp <;> norm_num [withinRadius, distSq],
    c7_capacity [GEvent.start ⟨0, 0⟩ false] sevenS ⟨0, 0⟩ false rfl
      (by intro p hp; fin_cases hp <;> norm_num [withinRadius, distSq])⟩

/-- C8 counterexample: the state reached from the initial state by a
single gesture start has an active drag (`draggingPoint` is set) while the
Ghost Point is absent, so "Ghost Point non-absent iff a drag gesture is
active" fails as stated. -/
theorem c8_counterexample :
    (runEvents initState [GEvent.start ⟨10, 10⟩ false]).draggingPoint = some 0 ∧
    (runEvents initState [GEvent.start ⟨10, 10⟩ false]).ghostPoint = none ∧
    ¬((runEvents initState [GEvent.start ⟨10, 10⟩ false]).ghostPoint.isSome = true ↔
      (runEvents initState [GEvent.start ⟨10, 10⟩ false]).draggingPoint.isSome = true) := by
  refine ⟨by decide, by decide, by decide⟩

/-- C8 (amended): in every state reachable by gesture events the Ghost
Point is non-absent only if a drag gesture is active (an active point is
set), and every move while a drag is active makes the Ghost Point
present; the converse fails between a gesture start and its first move. -/
theorem c8_ghost_only_while_dragging (evs : List GEvent) (s : AppState) (pos : Point)
    (hg : (runEvents initState evs).ghostPoint.isSome = true)
    (hd : s.draggingPoint.isSome = true) :
    (runEvents initState evs).draggingPoint.isSome = true ∧
    (handleMove s pos).ghostPoint = some pos := by
  constructor
  · exact runEvents_ghost_drag evs initState (by intro h; exact h) hg
  · cases hds : s.draggingPoint with
    | none => rw [hds] at hd; exact Bool.noConfusion hd
    | some i => simp [handleMove, hds]

/-- Witness for the amended C8: start then one move reaches a state with a
ghost; a concrete mid-drag state for the move clause. -/
theorem c8_ghost_only_while_dragging_witness :
    ((runEvents initState [GEvent.start ⟨0, 0⟩ false, GEvent.move ⟨5, 5⟩]).ghostPoint.isSome = true) ∧
    (({ initState with points := [⟨1, 1⟩], draggingPoint := some 0 } : AppState).draggingPoint.isSome = true) ∧
    ((runEvents initState [GEvent.start ⟨0, 0⟩ false, GEvent.move ⟨5, 5⟩]).draggingPoint.isSome = true ∧
      (handleMove { initState with points := [⟨1, 1⟩], draggingPoint := some 0 } ⟨2, 2⟩).ghostPoint = some ⟨2, 2⟩) :=
  ⟨by decide, by decide,
    c8_ghost_only_while_dragging [GEvent.start ⟨0, 0⟩ false, GEvent.move ⟨5, 5⟩]
      { initState with points := [⟨1, 1⟩], draggingPoint := some 0 } ⟨2, 2⟩ (by decide) (by decide)⟩

/-- C4 counterexample: with committed points `(20,0)` then `(1,0)` and a
gesture at the origin, both points are within the 25px radius, the second
is strictly nearer, yet the gesture grabs the first (index 0):
`points.find` takes the first in-radius point in sequence order, not the
nearest. -/
theorem c4_counterexample :
    (handleStart { initState with points := [⟨20, 0⟩, ⟨1, 0⟩] } ⟨0, 0⟩ false).draggingPoint
      = some 0 ∧
    withinRadius ⟨0, 0⟩ ⟨20, 0⟩ = true ∧
    withinRadius ⟨0, 0⟩ ⟨1, 0⟩ = true ∧
    distSq ⟨0, 0⟩ ⟨1, 0⟩ < distSq ⟨0, 0⟩ ⟨20, 0⟩ := by
  refine ⟨?_, by norm_num [withinRadius, distSq], by norm_num [withinRadius, distSq],
    by norm_num [distSq]⟩
  norm_num [handleStart, findPointIdx, withinRadius, distSq]

/-- C4 (amended): the point grabbed on gesture start is the first point in
sequence order within the 25px radius of the gesture location — every
earlier point in the sequence is out of radius (this coincides with the
nearest in-radius point whenever at most one point is within radius). -/
theorem c4_first_within_radius (s : AppState) (pos : Point) (t : Bool) (j : ℕ)
    (h : findPointIdx pos s.points = some j) :
    (handleStart s pos t).draggingPoint = some j ∧
    (∃ p, s.points[j]? = some p ∧ withinRadius pos p = true) ∧
    (∀ i, i < j → ∀ q, s.points[i]? = some q → withinRadius pos q = false) := by
  obtain ⟨hex, hmin⟩ := findPointIdx_spec pos s.points j h
  exact ⟨by simp [handleStart, h], hex, hmin⟩

/-- Witness for the amended C4: two points, the second in radius. -/
theorem c4_first_within_radius_witness :
    (findPointIdx ⟨0, 0⟩ (({ initState with points := [⟨90, 0⟩, ⟨3, 0⟩] } : AppState).points) = some 1) ∧
    ((handleStart { initState with points := [⟨90, 0⟩, ⟨3, 0⟩] } ⟨0, 0⟩ false).draggingPoint = some 1 ∧
      (∃ p, (({ initState with points := [⟨90, 0⟩, ⟨3, 0⟩] } : AppState).points)[1]? = some p ∧
        withinRadius ⟨0, 0⟩ p = true) ∧
      (∀ i, i < 1 → ∀ q, (({ initState with points := [⟨90, 0⟩, ⟨3, 0⟩] } : AppState).points)[i]? = some q →
        withinRadius ⟨0, 0⟩ q = false)) :=
  ⟨by norm_num [findPointIdx, withinRadius, distSq],
    c4_first_within_radius { initState with points := [⟨90, 0⟩, ⟨3, 0⟩] } ⟨0, 0⟩ false 1
      (by norm_num [findPointIdx, withinRadius, distSq])⟩

/-- C9 counterexample: saving a four-point sequence, clearing, then
restoring does NOT bring the four points back — the clear handler deletes
the snapshot, so the restored sequence is empty. -/
theorem c9_counterexample :
    (restoreSession (clearSession (saveSession
        { initState with points := [⟨1, 2⟩, ⟨3, 4⟩, ⟨5, 6⟩, ⟨7, 8⟩] }))).points.length = 0 ∧
    ({ initState with points := [⟨1, 2⟩, ⟨3, 4⟩, ⟨5, 6⟩, ⟨7, 8⟩] } : AppState).points.length = 4 :=
  ⟨rfl, rfl⟩

/-- C9 (amended): save immediately followed by restore is a round-trip —
the restored sequence holds exactly the saved coordinates; but clear
deletes the snapshot, so save, clear, restore yields the empty sequence
instead of the saved one. -/
theorem c9_save_restore_roundtrip (s : AppState) :
    (restoreSession (saveSession s)).points = s.points ∧
    (restoreSession (clearSession (saveSession s))).points = [] :=
  ⟨rfl, rfl⟩

/-- C10: the clear operation empties the Landmark Sequence (so the derived
results display is empty as well) and deletes the persisted session
snapshot from storage. -/
theorem c10_clear_deletes_snapshot (s : AppState) :
    (clearSession s).points = [] ∧
    (clearSession s).storage = none ∧
    ∀ style, angleData (clearSession s).points style = [] :=
  ⟨rfl, rfl, fun _ => rfl⟩

/-! ## Normal form of the two angle-derivation paths -/

/-- Indices past the five joint positions produce no angle in the
`draw()` loop. -/
theorem drawAngleAt_none_of_ge (pts : List Point) (i : ℕ) (h : 6 ≤ i) :
    drawAngleAt pts i = none := by
  unfold drawAngleAt
  rw [if_neg (show ¬(i = 1 ∧ 2 < pts.length) by rintro ⟨rfl, -⟩; omega),
      if_neg (show ¬(i = 2 ∧ 3 < pts.length) by rintro ⟨rfl, -⟩; omega),
      if_neg (show ¬(i = 3 ∧ 4 < pts.length) by rintro ⟨rfl, -⟩; omega),
      if_neg (show ¬(i = 4 ∧ 5 < pts.length) by rintro ⟨rfl, -⟩; omega),
      if_neg (show ¬(i = 5 ∧ 6 < pts.length) by rintro ⟨rfl, -⟩; omega)]

/-- A `filterMap` over `List.range n` can be truncated at `m` when the
function vanishes from `m` on. -/
theorem filterMap_range_of_ge {α : Type} (f : ℕ → Option α) (m : ℕ) (n : ℕ)
    (hmn : m ≤ n) (hf : ∀ i, m ≤ i → f i = none) :
    (List.range n).filterMap f = (List.range m).filterMap f := by
  induction n with
  | zero =>
    have : m = 0 := by omega
    subst this; rfl
  | succ k ih =>
    by_cases hmk : m = k + 1
    · subst hmk; rfl
    · have hm : m ≤ k := by omega
      rw [List.range_succ, List.filterMap_append, ih hm]
      simp [hf k (by omega)]

/-- The `draw()` loop's `angleData`, written as the fixed derivation
table: one optional entry per joint, in the loop's index order, present
exactly when all required indices exist. -/
theorem angleData_norm (pts : List Point) (style : RidingStyle) :
    angleData pts style =
      (if 2 < pts.length then
        [mkResult style .Ankle (calcAngle (pts.getD 0 dpt) (pts.getD 1 dpt) (pts.getD 2 dpt))] else [])
      ++ (if 3 < pts.length then
        [mkResult style .Knee (calcAngle (pts.getD 1 dpt) (pts.getD 2 dpt) (pts.getD 3 dpt))] else [])
      ++ (if 4 < pts.length then
        [mkResult style .Back (backAngle (pts.getD 3 dpt) (pts.getD 4 dpt))] else [])
      ++ (if 5 < pts.length then
        [mkResult style .Shoulder (calcAngle (pts.getD 3 dpt) (pts.getD 4 dpt) (pts.getD 5 dpt))] else [])
      ++ (if 6 < pts.length then
        [mkResult style .Elbow (|180 - calcAngle (pts.getD 4 dpt) (pts.getD 5 dpt) (pts.getD 6 dpt)|)] else []) := by
  match pts with
  | [] => rfl
  | [p0] => rfl
  | [p0, p1] => rfl
  | [p0, p1, p2] => rfl
  | [p0, p1, p2, p3] => rfl
  | [p0, p1, p2, p3, p4] => rfl
  | [p0, p1, p2, p3, p4, p5] => rfl
  | p0 :: p1 :: p2 :: p3 :: p4 :: p5 :: p6 :: rest =>
    have hlen : 6 ≤ (p0 :: p1 :: p2 :: p3 :: p4 :: p5 :: p6 :: rest).length := by
      simp only [List.length_cons]; omega
    unfold angleData
    rw [filterMap_range_of_ge _ 6 _ hlen
      (fun i hi => by rw [drawAngleAt_none_of_ge _ i hi]; rfl)]
    have e0 : drawAngleAt (p0 :: p1 :: p2 :: p3 :: p4 :: p5 :: p6 :: rest) 0 = none := by
      unfold drawAngleAt
      rw [if_neg (by simp), if_neg (by simp), if_neg (by simp), if_neg (by simp), if_neg (by simp)]
    have e1 : drawAngleAt (p0 :: p1 :: p2 :: p3 :: p4 :: p5 :: p6 :: rest) 1 =
        some (.Ankle, calcAngle ((p0 :: p1 :: p2 :: p3 :: p4 :: p5 :: p6 :: rest).getD 0 dpt)
          ((p0 :: p1 :: p2 :: p3 :: p4 :: p5 :: p6 :: rest).getD 1 dpt)
          ((p0 :: p1 :: p2 :: p3 :: p4 :: p5 :: p6 :: rest).getD 2 dpt)) := by
      unfold drawAngleAt
      rw [if_pos ⟨rfl, by simp only [List.length_cons]; omega⟩]
    have e2 : drawAngleAt (p0 :: p1 :: p2 :: p3 :: p4 :: p5 :: p6 :: rest) 2 =
        some (.Knee, calcAngle ((p0 :: p1 :: p2 :: p3 :: p4 :: p5 :: p6 :: rest).getD 1 dpt)
          ((p0 :: p1 :: p2 :: p3 :: p4 :: p5 :: p6 :: rest).getD 2 dpt)
          ((p0 :: p1 :: p2 :: p3 :: p4 :: p5 :: p6 :: rest).getD 3 dpt)) := by
      unfold drawAngleAt
      rw [if_neg (by simp), if_pos ⟨rfl, by simp only [List.length_cons]; omega⟩]
    have e3 : drawAngleAt (p0 :: p1 :: p2 :: p3 :: p4 :: p5 :: p6 :: rest) 3 =
        some (.Back, backAngle ((p0 :: p1 :: p2 :: p3 :: p4 :: p5 :: p6 :: rest).getD 3 dpt)
          ((p0 :: p1 :: p2 :: p3 :: p4 :: p5 :: p6 :: rest).getD 4 dpt)) := by
      unfold drawAngleAt
      rw [if_neg (by simp), if_neg (by simp), if_pos ⟨rfl, by simp only [List.length_cons]; omega⟩]
    have e4 : drawAngleAt (p0 :: p1 :: p2 :: p3 :: p4 :: p5 :: p6 :: rest) 4 =
        some (.Shoulder, calcAngle ((p0 :: p1 :: p2 :: p3 :: p4 :: p5 :: p6 :: rest).getD 3 dpt)
          ((p0 :: p1 :: p2 :: p3 :: p4 :: p5 :: p6 :: rest).getD 4 dpt)
          ((p0 :: p1 :: p2 :: p3 :: p4 :: p5 :: p6 :: rest).getD 5 dpt)) := by
      unfold drawAngleAt
      rw [if_neg (by simp), if_neg (by simp), if_neg (by simp),
        if_pos ⟨rfl, by simp only [List.length_cons]; omega⟩]
    have e5 : drawAngleAt (p0 :: p1 :: p2 :: p3 :: p4 :: p5 :: p6 :: rest) 5 =
        some (.Elbow, |180 - calcAngle ((p0 :: p1 :: p2 :: p3 :: p4 :: p5 :: p6 :: rest).getD 4 dpt)
          ((p0 :: p1 :: p2 :: p3 :: p4 :: p5 :: p6 :: rest).getD 5 dpt)
          ((p0 :: p1 :: p2 :: p3 :: p4 :: p5 :: p6 :: rest).getD 6 dpt)|) := by
      unfold drawAngleAt
      rw [if_neg (by simp), if_neg (by simp), if_neg (by simp), if_neg (by simp),
        if_pos ⟨rfl, by simp only [List.length_cons]; omega⟩]
    rw [show List.range 6 = [0, 1, 2, 3, 4, 5] from rfl]
    simp only [List.filterMap_cons, List.filterMap_nil, e0, e1, e2, e3, e4, e5,
      Option.map_some', Option.map_none']
    rw [if_pos (show 2 < (p0 :: p1 :: p2 :: p3 :: p4 :: p5 :: p6 :: rest).length by
          simp only [List.length_cons]; omega),
        if_pos (show 3 < (p0 :: p1 :: p2 :: p3 :: p4 :: p5 :: p6 :: rest).length by
          simp only [List.length_cons]; omega),
        if_pos (show 4 < (p0 :: p1 :: p2 :: p3 :: p4 :: p5 :: p6 :: rest).length by
          simp only [List.length_cons]; omega),
        if_pos (show 5 < (p0 :: p1 :: p2 :: p3 :: p4 :: p5 :: p6 :: rest).length by
          simp only [List.length_cons]; omega),
        if_pos (show 6 < (p0 :: p1 :: p2 :: p3 :: p4 :: p5 :: p6 :: rest).length by
          simp only [List.length_cons]; omega)]
    rfl

/-- The PDF-export `tableRows` loop, written as the same fixed derivation
table as the live path, with each row expressed through the live path's
row constructors (the two ADVICE tables and classifications coincide
entry-by-entry, so each produced row is literally the live row). -/
theorem pdfRows_norm (pts : List Point) (style : RidingStyle) :
    pdfRows pts style =
      (if 2 < pts.length then
        [liveRow (mkResult style .Ankle (calcAngle (pts.getD 0 dpt) (pts.getD 1 dpt) (pts.getD 2 dpt)))] else [])
      ++ (if 3 < pts.length then
        [liveRow (mkResult style .Knee (calcAngle (pts.getD 1 dpt) (pts.getD 2 dpt) (pts.getD 3 dpt)))] else [])
      ++ (if 4 < pts.length then
        [liveRow (mkResult style .Back (backAngle (pts.getD 3 dpt) (pts.getD 4 dpt)))] else [])
      ++ (if 5 < pts.length then
        [liveRow (mkResult style .Shoulder (calcAngle (pts.getD 3 dpt) (pts.getD 4 dpt) (pts.getD 5 dpt)))] else [])
      ++ (if 6 < pts.length then
        [liveRow (mkResult style .Elbow (|180 - calcAngle (pts.getD 4 dpt) (pts.getD 5 dpt) (pts.getD 6 dpt)|))] else []) := by
  match pts with
  | [] => rfl
  | [p0] => rfl
  | [p0, p1] => rfl
  | [p0, p1, p2] => rfl
  | [p0, p1, p2, p3] => rfl
  | [p0, p1, p2, p3, p4] => rfl
  | [p0, p1, p2, p3, p4, p5] => rfl
  | p0 :: p1 :: p2 :: p3 :: p4 :: p5 :: p6 :: rest =>
    unfold pdfRows jointDefs
    rw [if_pos (show 0 < (p0 :: p1 :: p2 :: p3 :: p4 :: p5 :: p6 :: rest).length ∧
          1 < (p0 :: p1 :: p2 :: p3 :: p4 :: p5 :: p6 :: rest).length ∧
          2 < (p0 :: p1 :: p2 :: p3 :: p4 :: p5 :: p6 :: rest).length by
          refine ⟨?_, ?_, ?_⟩ <;> simp only [List.length_cons] <;> omega),
        if_pos (show 1 < (p0 :: p1 :: p2 :: p3 :: p4 :: p5 :: p6 :: rest).length ∧
          2 < (p0 :: p1 :: p2 :: p3 :: p4 :: p5 :: p6 :: rest).length ∧
          3 < (p0 :: p1 :: p2 :: p3 :: p4 :: p5 :: p6 :: rest).length by
          refine ⟨?_, ?_, ?_⟩ <;> simp only [List.length_cons] <;> omega),
        if_pos (show 3 < (p0 :: p1 :: p2 :: p3 :: p4 :: p5 :: p6 :: rest).length ∧
          4 < (p0 :: p1 :: p2 :: p3 :: p4 :: p5 :: p6 :: rest).length by
          refine ⟨?_, ?_⟩ <;> simp only [List.length_cons] <;> omega),
        if_pos (show 3 < (p0 :: p1 :: p2 :: p3 :: p4 :: p5 :: p6 :: rest).length ∧
          4 < (p0 :: p1 :: p2 :: p3 :: p4 :: p5 :: p6 :: rest).length ∧
          5 < (p0 :: p1 :: p2 :: p3 :: p4 :: p5 :: p6 :: rest).length by
          refine ⟨?_, ?_, ?_⟩ <;> simp only [List.length_cons] <;> omega),
        if_pos (show 4 < (p0 :: p1 :: p2 :: p3 :: p4 :: p5 :: p6 :: rest).length ∧
          5 < (p0 :: p1 :: p2 :: p3 :: p4 :: p5 :: p6 :: rest).length ∧
          6 < (p0 :: p1 :: p2 :: p3 :: p4 :: p5 :: p6 :: rest).length by
          refine ⟨?_, ?_, ?_⟩ <;> simp only [List.length_cons] <;> omega)]
    rw [if_pos (show 2 < (p0 :: p1 :: p2 :: p3 :: p4 :: p5 :: p6 :: rest).length by
          simp only [List.length_cons]; omega),
        if_pos (show 3 < (p0 :: p1 :: p2 :: p3 :: p4 :: p5 :: p6 :: rest).length by
          simp only [List.length_cons]; omega),
        if_pos (show 4 < (p0 :: p1 :: p2 :: p3 :: p4 :: p5 :: p6 :: rest).length by
          simp only [List.length_cons]; omega),
        if_pos (show 5 < (p0 :: p1 :: p2 :: p3 :: p4 :: p5 :: p6 :: rest).length by
          simp only [List.length_cons]; omega),
        if_pos (show 6 < (p0 :: p1 :: p2 :: p3 :: p4 :: p5 :: p6 :: rest).length by
          simp only [List.length_cons]; omega)]
    rfl

/-- C1: for every committed Landmark Sequence, the `draw()` loop derives
exactly the fixed table — Ankle = `calcAngle(p0,p1,p2)` once indices 0..2
exist, Knee = `calcAngle(p1,p2,p3)` once 0..3 exist, Back =
`|atan2(p4.y−p3.y, p4.x−p3.x)|` in degrees once 0..4 exist, Shoulder =
`calcAngle(p3,p4,p5)` once 0..5 exist, Elbow = `|180 −
calcAngle(p4,p5,p6)|` once 0..6 exist — and a joint whose required
indices are not all present contributes no Angle Result. -/
theorem c1_angle_derivation_table (pts : List Point) (style : RidingStyle) :
    angleData pts style =
      (if 2 < pts.length then
        [mkResult style .Ankle (calcAngle (pts.getD 0 dpt) (pts.getD 1 dpt) (pts.getD 2 dpt))] else [])
      ++ (if 3 < pts.length then
        [mkResult style .Knee (calcAngle (pts.getD 1 dpt) (pts.getD 2 dpt) (pts.getD 3 dpt))] else [])
      ++ (if 4 < pts.length then
        [mkResult style .Back (backAngle (pts.getD 3 dpt) (pts.getD 4 dpt))] else [])
      ++ (if 5 < pts.length then
        [mkResult style .Shoulder (calcAngle (pts.getD 3 dpt) (pts.getD 4 dpt) (pts.getD 5 dpt))] else [])
      ++ (if 6 < pts.length then
        [mkResult style .Elbow (|180 - calcAngle (pts.getD 4 dpt) (pts.getD 5 dpt) (pts.getD 6 dpt)|)] else []) :=
  angleData_norm pts style

/-- C2: for every committed Landmark Sequence and riding style, the
live-overlay path (`draw()` + `updateTable`) and the PDF-export path
(`jointDefs` + `tableRows`) produce identical rows: the same joints, the
same angle values, the same in-range classifications and the same advice
text. -/
theorem c2_live_and_pdf_paths_agree (pts : List Point) (style : RidingStyle) :
    liveRows pts style = pdfRows pts style := by
  rw [pdfRows_norm, liveRows, angleData_norm]
  simp only [List.map_append, apply_ite (List.map liveRow), List.map_cons, List.map_nil]
